import Mathlib

/-!
Shallow embedding of src/agentic.py: the location registry, the three tool
functions (temperature, UTC offset, local time), the tool-descriptor builder,
and the driver script, together with theorems about them.

Modelling conventions:
* Python floats are modelled as exact rationals (Rat).
* The pseudo-random source (random.uniform) is modelled by an explicit
  generator state: a stream of unit-interval draws plus a cursor; drawing
  reads the stream at the cursor and advances it.
* Python round(x, 1) is modelled as round-half-to-even at one decimal digit.
* Python raise/except is modelled with Except; the raised message string is
  the error value.
* datetime.now(tz=timezone(timedelta(hours=o))) is modelled by passing the
  current UTC instant (seconds since epoch, as a Rat) explicitly; the Python
  timezone constructor only admits offsets strictly between -24 and +24
  hours (ValueError otherwise), which the embedding reproduces; sub-microsecond
  rounding of timedelta is abstracted away (durations are exact rationals).
-/

namespace Agentic

/-- Registry of UTC-hour offsets, src/agentic.py lines 15-25 (dict literal
time_diffs, in source order; Python dicts preserve insertion order). -/
def time_diffs : List (String × Rat) :=
  [("Abuja", 1), ("Accra", 0), ("Cairo", 2), ("Dakar", 0), ("Gaborone", 2),
   ("Kigali", 2), ("Nairobi", 3), ("Praia", -1), ("Pretoria", 2)]

/-- The values admitted by the Location Literal type, src/agentic.py lines 12-14. -/
def Location_values : List String :=
  ["Abuja", "Accra", "Cairo", "Dakar", "Gaborone", "Kigali", "Nairobi", "Praia", "Pretoria"]

/-- Python dict membership test (location in d) on an association list. -/
def dictContains {α : Type} (d : List (String × α)) (k : String) : Bool :=
  d.any (fun p => p.1 == k)

/-- Python dict lookup d[k] on an association list; the default is never
reached when the caller has checked membership first, as the source does. -/
def dictGet {α : Type} [Inhabited α] (d : List (String × α)) (k : String) : α :=
  ((d.find? (fun p => p.1 == k)).map Prod.snd).getD default

/-- Python dict assignment d[k] = v on an association list: overwrite in
place when the key is present, append otherwise (insertion order preserved). -/
def dictInsert {α : Type} (d : List (String × α)) (k : String) (v : α) : List (String × α) :=
  if d.any (fun p => p.1 == k) then d.map (fun p => if p.1 == k then (k, v) else p)
  else d ++ [(k, v)]

/-- Round half to even to the nearest integer, as Python round does. -/
def rhe (q : Rat) : Int :=
  if q - ⌊q⌋ < 1 / 2 then ⌊q⌋
  else if 1 / 2 < q - ⌊q⌋ then ⌊q⌋ + 1
  else if ⌊q⌋ % 2 = 0 then ⌊q⌋ else ⌊q⌋ + 1

/-- Python round(x, 1): round to one decimal digit, ties to even. -/
def roundTo1 (x : Rat) : Rat := (rhe (10 * x) : Rat) / 10

/-- random.uniform(a, b) = a + (b - a) * random(), with the unit draw u
supplied explicitly by the caller (u models random(), so 0 <= u <= 1). -/
def uniform (a b u : Rat) : Rat := a + (b - a) * u

/-- generate_temperature, src/agentic.py lines 41-48: a uniform draw between
min_temp and max_temp rounded to 1 decimal place. The source calls it with
its default arguments min_temp = 8, max_temp = 45. -/
def generate_temperature (min_temp max_temp u : Rat) : Rat :=
  roundTo1 (uniform min_temp max_temp u)

/-- State of the pseudo-random source: a stream of unit-interval draws and a
cursor into it. -/
structure Rng where
  stream : Nat → Rat
  idx : Nat

/-- Draw from the pseudo-random source: read the current position of the
stream and advance the cursor. -/
def Rng.next (g : Rng) : Rat × Rng := (g.stream g.idx, ⟨g.stream, g.idx + 1⟩)

/-- Decimal rendering of a nonnegative one-decimal rational, as a Python
f-string renders the float produced by round(x, 1) (for example 26.5). -/
def floatRepr1 (x : Rat) : String :=
  toString (⌊10 * x⌋ / 10) ++ "." ++ toString (⌊10 * x⌋ % 10)

/-- get_location_temperature, src/agentic.py lines 72-84: validate the
location against time_diffs (raising ValueError outside the registry, before
any randomness is consumed), then draw a temperature and format it with the
requested unit label appended verbatim. The generator state is threaded
explicitly; the failure branch returns it unchanged. -/
def get_location_temperature (g : Rng) (location : String) (units : String) :
    Except String String × Rng :=
  if ¬ dictContains time_diffs location then
    (Except.error ("Invalid location " ++ location), g)
  else
    (Except.ok ("The temperature in " ++ location ++ " is: " ++
      floatRepr1 (generate_temperature 8 45 (g.next).1) ++ " " ++ units), (g.next).2)

/-- An aware datetime as returned by datetime.now(tz): the wall-clock reading
in the attached timezone (seconds since epoch) together with the utcoffset of
that timezone (in seconds). -/
structure AwareDatetime where
  wall : Rat
  utcoffset : Rat
deriving DecidableEq

/-- get_local_datetime, src/agentic.py lines 86-93: the current instant in
timezone(timedelta(hours=offset_from_utc)). Python's timezone constructor
raises ValueError unless the offset is strictly between -24 and +24 hours;
within range, the returned datetime's wall clock is UTC now plus the offset. -/
def get_local_datetime (now_utc : Rat) (offset_from_utc : Rat) : Except String AwareDatetime :=
  if -24 < offset_from_utc ∧ offset_from_utc < 24 then
    Except.ok ⟨now_utc + 3600 * offset_from_utc, 3600 * offset_from_utc⟩
  else
    Except.error "offset must be a timedelta strictly between -timedelta(hours=24) and timedelta(hours=24)."

/-- get_offset_from_utc, src/agentic.py lines 95-106: validate against
time_diffs, then return the tabulated offset. -/
def get_offset_from_utc (location : String) : Except String Rat :=
  if ¬ dictContains time_diffs location then
    Except.error ("Invalid location " ++ location)
  else
    Except.ok (dictGet time_diffs location)

/-- A langchain BaseTool as far as the script consumes it: the declared name
and the natural-language description that the @tool decorator takes from the
wrapped function (its name and cleaned docstring). -/
structure BaseTool where
  name : String
  description : String
deriving DecidableEq

/-- Descriptor of the @tool-wrapped get_location_temperature, src/agentic.py
lines 72-84 (name from the function, description from its docstring; the
stray unclosed quote after Fahrenheit is in the source). -/
def get_location_temperature_tool : BaseTool :=
  { name := "get_location_temperature"
    description := "Retrieve the temperature in a given African capital city\n:param location: Location to get the temperature for\n:param units: Temperature unit - must be one of \"Celsius\", and \"Fahrenheit\n:return: A string containing the temperature, units, and location" }

/-- Descriptor of the @tool-wrapped get_local_datetime, src/agentic.py
lines 86-93. -/
def get_local_datetime_tool : BaseTool :=
  { name := "get_local_datetime"
    description := "Retrieve the current local datetime in a given timezone\n:param offset_from_utc: Time offset from UTC\n:return: Current datetime in the specified timezone" }

/-- Descriptor of the @tool-wrapped get_offset_from_utc, src/agentic.py
lines 95-106. -/
def get_offset_from_utc_tool : BaseTool :=
  { name := "get_offset_from_utc"
    description := "Get the time offset from UTC for the specified location\n:param location: The location to get its offset from UTC.\n   must be one of \"Abuja\", \"Accra\", \"Cairo\", \"Dakar\", \"Gaborone\", \"Kigali\", \"Nairobi\",\"Praia\", and \"Pretoria\"\n:return: float representing the time offset from UTC" }

/-- available_tools, src/agentic.py line 108. -/
def available_tools : List BaseTool :=
  [get_location_temperature_tool, get_local_datetime_tool, get_offset_from_utc_tool]

/-- get_tools_info, src/agentic.py lines 50-61: fold the tools into a dict
from tool name to tool description, with Python dict assignment semantics. -/
def get_tools_info (tools_list : List BaseTool) : List (String × String) :=
  tools_list.foldl (fun tools_info t => dictInsert tools_info t.name t.description) []

/-- JSON escaping of one character as json.dumps performs it on the strings
occurring in this script (backslash, double quote, newline). -/
def jsonEscapeChar (c : Char) : String :=
  if c = '\\' then "\\\\"
  else if c = '\"' then "\\\""
  else if c = '\n' then "\\n"
  else String.singleton c

/-- JSON escaping of a string. -/
def jsonEscape (s : String) : String :=
  String.join (s.toList.map jsonEscapeChar)

/-- json.dumps(d, indent=4) for a string-to-string dict. -/
def jsonDumps4 (d : List (String × String)) : String :=
  if d.isEmpty then "\x7b\x7d"
  else
    "\x7b\n" ++
    String.intercalate ",\n"
      (d.map (fun p => "    \"" ++ jsonEscape p.1 ++ "\": \"" ++ jsonEscape p.2 ++ "\"")) ++
    "\n\x7d"

/-- locale, src/agentic.py line 118. -/
def locale : String := "Praia"

/-- The user question both driver invocations send, src/agentic.py
lines 127 and 138. -/
def weather_question : String := "What\x27s the current weather in " ++ locale ++ "?"

/-- The serialized tool descriptors passed under the tools key of both
invocations, src/agentic.py lines 128 and 139. -/
def toolsPayload : String := jsonDumps4 (get_tools_info available_tools)

/-- An observable step of the driver script: a chat-model invocation (with or
without the tools bound to the model, carrying the user question and the
serialized descriptors), or a printed line. -/
inductive ScriptEvent where
  | modelCall (toolsBound : Bool) (input_prompt : String) (tools : String) : ScriptEvent
  | printOut (s : String) : ScriptEvent
deriving DecidableEq

/-- The driver, src/agentic.py lines 118-142, as the trace of its external
effects. The chat model is the out-of-scope collaborator, abstracted as the
function respond from (tools bound?, input_prompt, tools payload) to the
response text; pprint of the f-string is modelled as printing its content. -/
def script_trace (respond : Bool → String → String → String) : List ScriptEvent :=
  [ScriptEvent.modelCall false weather_question toolsPayload,
   ScriptEvent.printOut ("Response to weather query without tool:\n" ++
     respond false weather_question toolsPayload),
   ScriptEvent.modelCall true weather_question toolsPayload,
   ScriptEvent.printOut ("Response to weather query with tool:\n" ++
     respond true weather_question toolsPayload)]

/-- The chat-model invocations of a trace, as (tools bound?, user question)
pairs in order. -/
def modelCallsOf (tr : List ScriptEvent) : List (Bool × String) :=
  tr.filterMap (fun e => match e with
    | ScriptEvent.modelCall b q _ => some (b, q)
    | ScriptEvent.printOut _ => none)

/-- The printed lines of a trace, in order. -/
def printsOf (tr : List ScriptEvent) : List String :=
  tr.filterMap (fun e => match e with
    | ScriptEvent.printOut s => some s
    | ScriptEvent.modelCall _ _ _ => none)

/-- A concrete generator state used by the witnesses: every draw is 1/2. -/
def g0 : Rng := ⟨fun _ => 1 / 2, 0⟩

/-- Membership in a dict is membership in its key list. -/
theorem dictContains_iff {α : Type} (d : List (String × α)) (k : String) :
    dictContains d k = true ↔ k ∈ d.map Prod.fst := by
  simp only [dictContains, List.any_eq_true, beq_iff_eq, List.mem_map]

/-- Round half to even lands on the floor or on the floor plus one. -/
theorem rhe_eq_floor_or (q : Rat) : rhe q = ⌊q⌋ ∨ rhe q = ⌊q⌋ + 1 := by
  unfold rhe
  split_ifs <;> omega

/-- Round half to even respects integer lower bounds. -/
theorem intCast_le_rhe (m : Int) (q : Rat) (h : (m : Rat) ≤ q) : m ≤ rhe q := by
  have hf : m ≤ ⌊q⌋ := Int.le_floor.mpr h
  rcases rhe_eq_floor_or q with h' | h' <;> rw [h'] <;> omega

/-- Round half to even respects integer upper bounds. -/
theorem rhe_le_intCast (m : Int) (q : Rat) (h : q ≤ (m : Rat)) : rhe q ≤ m := by
  have hf : ⌊q⌋ ≤ m := by
    have h1 := Int.floor_le_floor h
    simpa using h1
  unfold rhe
  split_ifs with h1 h2 h3
  · exact hf
  · have hfl : (⌊q⌋ : Rat) ≤ q := Int.floor_le q
    have hlt : ⌊q⌋ < m := by
      rcases lt_or_eq_of_le hf with hc | hc
      · exact hc
      · exfalso
        rw [hc] at h2
        linarith
    omega
  · exact hf
  · have heq : q - ⌊q⌋ = 1 / 2 := le_antisymm (not_lt.mp h2) (not_lt.mp h1)
    have hlt : (⌊q⌋ : Rat) < m := by linarith
    have : ⌊q⌋ < m := by exact_mod_cast hlt
    omega

/-- Rounding to one decimal keeps a value of [8, 45] inside [8, 45]. -/
theorem roundTo1_mem (x : Rat) (h1 : 8 ≤ x) (h2 : x ≤ 45) :
    8 ≤ roundTo1 x ∧ roundTo1 x ≤ 45 := by
  have h80 : ((80 : Int) : Rat) ≤ 10 * x := by push_cast; linarith
  have h450 : 10 * x ≤ ((450 : Int) : Rat) := by push_cast; linarith
  have hl := intCast_le_rhe 80 (10 * x) h80
  have hr := rhe_le_intCast 450 (10 * x) h450
  have hl' : (80 : Rat) ≤ (rhe (10 * x) : Rat) := by exact_mod_cast hl
  have hr' : (rhe (10 * x) : Rat) ≤ 450 := by exact_mod_cast hr
  unfold roundTo1
  constructor
  · rw [le_div_iff₀ (by norm_num : (0 : Rat) < 10)]
    linarith
  · rw [div_le_iff₀ (by norm_num : (0 : Rat) < 10)]
    linarith

/-- On an in-registry location, get_location_temperature takes its success
branch: it draws, formats, and advances the generator. -/
theorem get_location_temperature_ok (g : Rng) (loc units : String)
    (h : dictContains time_diffs loc = true) :
    get_location_temperature g loc units =
      (Except.ok ("The temperature in " ++ loc ++ " is: " ++
        floatRepr1 (generate_temperature 8 45 (g.next).1) ++ " " ++ units),
       (g.next).2) := by
  unfold get_location_temperature
  rw [if_neg (by simp [h])]

/-- C1: every location of the registry maps under get_offset_from_utc to
exactly its tabulated offset; in particular Praia maps to -1. -/
theorem c1_offset_tabulated :
    (∀ p ∈ time_diffs, get_offset_from_utc p.1 = Except.ok p.2) ∧
    get_offset_from_utc "Praia" = Except.ok (-1) := by
  constructor
  · intro p hp
    fin_cases hp <;> rfl
  · rfl

/-- Witness for C1 at the registry entry (Praia, -1). -/
theorem c1_offset_tabulated_witness :
    ("Praia", (-1 : Rat)) ∈ time_diffs ∧ get_offset_from_utc "Praia" = Except.ok (-1) :=
  ⟨by decide, c1_offset_tabulated.1 ("Praia", -1) (by decide)⟩

/-- C3: both location-taking tools fail exactly on locations outside the
registry key set, and a failing get_location_temperature call leaves the
generator state untouched (get_offset_from_utc touches no state at all). -/
theorem c3_unknown_location (location units : String) (g : Rng) :
    ((∃ e, get_offset_from_utc location = Except.error e) ↔
      location ∉ time_diffs.map Prod.fst) ∧
    ((∃ e, (get_location_temperature g location units).1 = Except.error e) ↔
      location ∉ time_diffs.map Prod.fst) ∧
    (location ∉ time_diffs.map Prod.fst →
      (get_location_temperature g location units).2 = g) := by
  by_cases hmem : location ∈ time_diffs.map Prod.fst
  · have hc : dictContains time_diffs location = true := (dictContains_iff _ _).mpr hmem
    have hcond : ¬ ¬ (dictContains time_diffs location = true) := by simp [hc]
    refine ⟨?_, ?_, ?_⟩
    · unfold get_offset_from_utc
      rw [if_neg hcond]
      simp [hmem]
    · unfold get_location_temperature
      rw [if_neg hcond]
      simp [hmem]
    · intro hcontra
      exact absurd hmem hcontra
  · have hcond : ¬ (dictContains time_diffs location = true) :=
      fun h => hmem ((dictContains_iff _ _).mp h)
    refine ⟨?_, ?_, ?_⟩
    · unfold get_offset_from_utc
      rw [if_pos hcond]
      simp [hmem]
    · unfold get_location_temperature
      rw [if_pos hcond]
      simp [hmem]
    · intro _
      unfold get_location_temperature
      rw [if_pos hcond]

/-- Witness for C3 at the out-of-registry location Lagos. -/
theorem c3_unknown_location_witness :
    ("Lagos" ∉ time_diffs.map Prod.fst) ∧
    (∃ e, get_offset_from_utc "Lagos" = Except.error e) ∧
    (get_location_temperature g0 "Lagos" "Celsius").2 = g0 :=
  ⟨by decide,
   (c3_unknown_location "Lagos" "Celsius" g0).1.mpr (by decide),
   (c3_unknown_location "Lagos" "Celsius" g0).2.2 (by decide)⟩

/-- C10: the Location Literal type lists exactly the registry keys, so on any
well-typed Location both location-taking tools take their success branch. -/
theorem c10_location_type_covers_registry :
    Location_values = time_diffs.map Prod.fst ∧
    ∀ loc ∈ Location_values,
      (∃ v, get_offset_from_utc loc = Except.ok v) ∧
      ∀ (g : Rng) (units : String), ∃ s,
        (get_location_temperature g loc units).1 = Except.ok s := by
  refine ⟨by decide, ?_⟩
  intro loc hloc
  fin_cases hloc <;> exact ⟨⟨_, rfl⟩, fun g units => ⟨_, rfl⟩⟩

/-- Witness for C10 at the Location value Accra. -/
theorem c10_location_type_covers_registry_witness :
    "Accra" ∈ Location_values ∧ ∃ v, get_offset_from_utc "Accra" = Except.ok v :=
  ⟨by decide, (c10_location_type_covers_registry.2 "Accra" (by decide)).1⟩

/-- C2: on an in-registry location, get_location_temperature returns the
formatted string whose numeric component is the drawn temperature, which lies
in [8, 45], is an integer multiple of one tenth, and is followed by the
requested unit label verbatim, whatever that label is. The draw of the
pseudo-random source is a unit-interval value, as random() produces. -/
theorem c2_temperature_format_bounds (g : Rng) (loc units : String)
    (hloc : loc ∈ time_diffs.map Prod.fst)
    (h0 : 0 ≤ g.stream g.idx) (h1 : g.stream g.idx ≤ 1) :
    (get_location_temperature g loc units).1 =
      Except.ok ("The temperature in " ++ loc ++ " is: " ++
        floatRepr1 (generate_temperature 8 45 (g.stream g.idx)) ++ " " ++ units) ∧
    8 ≤ generate_temperature 8 45 (g.stream g.idx) ∧
    generate_temperature 8 45 (g.stream g.idx) ≤ 45 ∧
    ∃ k : Int, generate_temperature 8 45 (g.stream g.idx) = (k : Rat) / 10 := by
  have hc : dictContains time_diffs loc = true := (dictContains_iff _ _).mpr hloc
  have hraw1 : 8 ≤ uniform 8 45 (g.stream g.idx) := by
    unfold uniform
    nlinarith
  have hraw2 : uniform 8 45 (g.stream g.idx) ≤ 45 := by
    unfold uniform
    nlinarith
  have hb := roundTo1_mem _ hraw1 hraw2
  refine ⟨?_, hb.1, hb.2, ⟨rhe (10 * uniform 8 45 (g.stream g.idx)), rfl⟩⟩
  rw [get_location_temperature_ok g loc units hc]
  rfl

/-- Witness for C2 at Praia in Fahrenheit with the all-halves generator. -/
theorem c2_temperature_format_bounds_witness :
    ("Praia" ∈ time_diffs.map Prod.fst ∧ 0 ≤ g0.stream g0.idx ∧ g0.stream g0.idx ≤ 1) ∧
    ((get_location_temperature g0 "Praia" "Fahrenheit").1 =
      Except.ok ("The temperature in " ++ "Praia" ++ " is: " ++
        floatRepr1 (generate_temperature 8 45 (g0.stream g0.idx)) ++ " " ++ "Fahrenheit") ∧
     8 ≤ generate_temperature 8 45 (g0.stream g0.idx) ∧
     generate_temperature 8 45 (g0.stream g0.idx) ≤ 45 ∧
     ∃ k : Int, generate_temperature 8 45 (g0.stream g0.idx) = (k : Rat) / 10) :=
  ⟨⟨by decide, by norm_num [g0], by norm_num [g0]⟩,
   c2_temperature_format_bounds g0 "Praia" "Fahrenheit" (by decide)
     (by norm_num [g0]) (by norm_num [g0])⟩

/-- C7: with the generator state fixed, two calls on an in-registry location
that differ only in the requested unit return strings that differ only in the
trailing unit label, and leave the generator in the same state: the unit has
no influence on the numeric value. -/
theorem c7_unit_independent_value (g : Rng) (loc u1 u2 : String)
    (hloc : loc ∈ time_diffs.map Prod.fst) :
    ∃ core : String,
      (get_location_temperature g loc u1).1 = Except.ok (core ++ u1) ∧
      (get_location_temperature g loc u2).1 = Except.ok (core ++ u2) ∧
      (get_location_temperature g loc u1).2 = (get_location_temperature g loc u2).2 := by
  have hc : dictContains time_diffs loc = true := (dictContains_iff _ _).mpr hloc
  refine ⟨"The temperature in " ++ loc ++ " is: " ++
    floatRepr1 (generate_temperature 8 45 (g.next).1) ++ " ", ?_, ?_, ?_⟩
  · rw [get_location_temperature_ok g loc u1 hc]
  · rw [get_location_temperature_ok g loc u2 hc]
  · rw [get_location_temperature_ok g loc u1 hc, get_location_temperature_ok g loc u2 hc]

/-- Witness for C7 at Praia with units Celsius and Fahrenheit. -/
theorem c7_unit_independent_value_witness :
    "Praia" ∈ time_diffs.map Prod.fst ∧
    ∃ core : String,
      (get_location_temperature g0 "Praia" "Celsius").1 = Except.ok (core ++ "Celsius") ∧
      (get_location_temperature g0 "Praia" "Fahrenheit").1 = Except.ok (core ++ "Fahrenheit") ∧
      (get_location_temperature g0 "Praia" "Celsius").2 =
        (get_location_temperature g0 "Praia" "Fahrenheit").2 :=
  ⟨by decide, c7_unit_independent_value g0 "Praia" "Celsius" "Fahrenheit" (by decide)⟩

/-- Counterexample to C4 as stated: the offset 24 is rejected, so not every
real-valued hour offset yields a timestamp. -/
theorem c4_no_validation_counterexample :
    get_local_datetime 0 24 =
      Except.error "offset must be a timedelta strictly between -timedelta(hours=24) and timedelta(hours=24)." := by
  unfold get_local_datetime
  rw [if_neg (fun h => absurd h.2 (lt_irrefl 24))]

/-- C4 (amended): get_local_datetime succeeds on every hour offset strictly
between -24 and 24, fractional and negative values included, and fails on
every offset outside that open interval. -/
theorem c4_amended_offset_range (now_utc offset_from_utc : Rat) :
    (-24 < offset_from_utc → offset_from_utc < 24 →
      ∃ t, get_local_datetime now_utc offset_from_utc = Except.ok t) ∧
    (¬ (-24 < offset_from_utc ∧ offset_from_utc < 24) →
      ∃ e, get_local_datetime now_utc offset_from_utc = Except.error e) := by
  constructor
  · intro h1 h2
    exact ⟨_, by unfold get_local_datetime; rw [if_pos ⟨h1, h2⟩]⟩
  · intro h
    exact ⟨_, by unfold get_local_datetime; rw [if_neg h]⟩

/-- Witness for the amended C4 at the fractional negative offset -1/2. -/
theorem c4_amended_offset_range_witness :
    ((-24 : Rat) < -1 / 2 ∧ (-1 / 2 : Rat) < 24) ∧
    ∃ t, get_local_datetime 0 (-1 / 2) = Except.ok t :=
  ⟨⟨by norm_num, by norm_num⟩,
   (c4_amended_offset_range 0 (-1 / 2)).1 (by norm_num) (by norm_num)⟩

/-- C5: get_local_datetime raises on every offset of absolute value at least
24 hours, and a returned timestamp occurs only for offsets strictly between
-24 and 24 hours. -/
theorem c5_out_of_range_error (now_utc offset_from_utc : Rat) :
    (24 ≤ |offset_from_utc| →
      ∃ e, get_local_datetime now_utc offset_from_utc = Except.error e) ∧
    (∀ t, get_local_datetime now_utc offset_from_utc = Except.ok t →
      -24 < offset_from_utc ∧ offset_from_utc < 24) := by
  constructor
  · intro habs
    have hno : ¬ (-24 < offset_from_utc ∧ offset_from_utc < 24) := by
      rintro ⟨h1, h2⟩
      rcases abs_cases offset_from_utc with ⟨he, _⟩ | ⟨he, _⟩ <;> rw [he] at habs <;> linarith
    exact ⟨_, by unfold get_local_datetime; rw [if_neg hno]⟩
  · intro t ht
    by_cases h : -24 < offset_from_utc ∧ offset_from_utc < 24
    · exact h
    · unfold get_local_datetime at ht
      rw [if_neg h] at ht
      exact absurd ht (by simp)

/-- Witness for C5 at the offset 25. -/
theorem c5_out_of_range_error_witness :
    (24 : Rat) ≤ |(25 : Rat)| ∧ ∃ e, get_local_datetime 0 25 = Except.error e :=
  ⟨by rw [abs_of_nonneg] <;> norm_num,
   (c5_out_of_range_error 0 25).1 (by rw [abs_of_nonneg] <;> norm_num)⟩

/-- C6: within the admissible range the returned datetime's timezone is
displaced from UTC by exactly the requested number of hours and its wall
clock is UTC now shifted by that amount; in particular the offset -1 yields
the current UTC time minus one hour. -/
theorem c6_exact_displacement (now_utc offset_from_utc : Rat)
    (h1 : -24 < offset_from_utc) (h2 : offset_from_utc < 24) :
    get_local_datetime now_utc offset_from_utc =
      Except.ok ⟨now_utc + 3600 * offset_from_utc, 3600 * offset_from_utc⟩ ∧
    get_local_datetime now_utc (-1) = Except.ok ⟨now_utc - 3600, -3600⟩ := by
  constructor
  · unfold get_local_datetime
    rw [if_pos ⟨h1, h2⟩]
  · unfold get_local_datetime
    rw [if_pos (by norm_num : (-24 : Rat) < -1 ∧ (-1 : Rat) < 24)]
    have e1 : now_utc + 3600 * (-1 : Rat) = now_utc - 3600 := by ring
    have e2 : (3600 : Rat) * (-1) = -3600 := by norm_num
    rw [e1, e2]

/-- Witness for C6 at UTC instant 100 and offset -1. -/
theorem c6_exact_displacement_witness :
    ((-24 : Rat) < -1 ∧ (-1 : Rat) < 24) ∧
    get_local_datetime 100 (-1) = Except.ok ⟨100 + 3600 * (-1), 3600 * (-1)⟩ :=
  ⟨⟨by norm_num, by norm_num⟩,
   (c6_exact_displacement 100 (-1) (by norm_num) (by norm_num)).1⟩

/-- C8: the tool-descriptor builder applied to the three declared tools yields
exactly three entries, keyed by the tools' declared names in encounter order,
each with a non-empty description. -/
theorem c8_tools_info :
    (get_tools_info available_tools).map Prod.fst =
      ["get_location_temperature", "get_local_datetime", "get_offset_from_utc"] ∧
    (get_tools_info available_tools).length = 3 ∧
    (get_tools_info available_tools).all (fun p => !(p.2 == "")) = true :=
  ⟨rfl, rfl, rfl⟩

/-- C9: the driver performs exactly two chat-model invocations, both carrying
the identical fixed weather question about the locale, the first without and
the second with the tools bound, and prints the two responses in that order. -/
theorem c9_driver_two_calls (respond : Bool → String → String → String) :
    modelCallsOf (script_trace respond) =
      [(false, weather_question), (true, weather_question)] ∧
    printsOf (script_trace respond) =
      ["Response to weather query without tool:\n" ++
         respond false weather_question toolsPayload,
       "Response to weather query with tool:\n" ++
         respond true weather_question toolsPayload] :=
  ⟨rfl, rfl⟩

end Agentic
